import Mathlib

/-!
Verification of the RAG chatbot query pipeline (backend/services/ragService.js
and backend/routes/chat.js) against its natural-language specification.

The JavaScript service is shallowly embedded: external collaborators
(embedding API, Qdrant, the generative model, Redis) are modelled as oracle
inputs, side effects are recorded as an explicit event trace, JS numbers that
stay exact integers are modelled with Int/Nat arithmetic mod 2 to the 32, and
floating-point values whose exact rounding is irrelevant to the claims are
idealised as real numbers.
-/

namespace RagSvc

/-- JS string truthiness with a default: the empty string is falsy, so
`s or dflt` in JS is `if s = "" then dflt else s`. -/
def orDflt (s dflt : String) : String := if s = "" then dflt else s

/-- Whitespace characters recognised by the model of `String.prototype.trim`. -/
def jsWhitespace (c : Char) : Bool :=
  c = ' ' || c = '\t' || c = '\n' || c = '\r' || c = '\x0b' || c = '\x0c'

/-- Model of JS `s.trim()`: strip leading and trailing whitespace. -/
def jsTrim (s : String) : String :=
  ⟨((s.toList.dropWhile jsWhitespace).reverse.dropWhile jsWhitespace).reverse⟩

/-- Helper for `jsIncludes`: does `sub` occur contiguously in the list? -/
def includesAux (sub : List Char) : List Char → Bool
  | [] => sub.isEmpty
  | c :: cs => sub.isPrefixOf (c :: cs) || includesAux sub cs

/-- Model of JS `s.includes(sub)` (substring containment). -/
def jsIncludes (s sub : String) : Bool := includesAux sub.toList s.toList

/-- The error-message classification used in `processQuery` and
`processQueryWithStreaming` (ragService.js lines 253 and 324): a generator
error is degradable when its message mentions rate limiting (429), quota,
invalid or expired credentials, or upstream overload (overloaded / 503). -/
def isDegradable (msg : String) : Bool :=
  jsIncludes msg "429" || jsIncludes msg "quota" || jsIncludes msg "API_KEY_INVALID" ||
    jsIncludes msg "expired" || jsIncludes msg "overloaded" || jsIncludes msg "503"

/-- Payload metadata attached to a stored chunk; absent JS fields are
modelled as the empty string (both are falsy in the source). -/
structure Metadata where
  title : String
  url : String
  source : String
  summary : String
deriving Repr, DecidableEq

/-- A retrieved match as consumed by the generator fallback:
`{text, score, metadata}`. -/
structure Doc where
  text : String
  score : ℝ
  metadata : Metadata

/-- A source citation `{title, url, score}` returned with a response. -/
structure SourceRef where
  title : String
  url : String
  score : ℝ

/-- A chat transcript entry as serialised to Redis. -/
structure ChatMessage where
  type : String
  content : String
  timestamp : String
  sources : List SourceRef

/-- Observable effects of one pipeline run, in emission order. -/
inductive Event where
  | embedCall (text : String)
  | searchCall (topK : ℕ)
  | genCall (prompt : String)
  | historyPush (key : String) (msg : ChatMessage)
  | chunkOut (fragment : String)
  | completeOut (response : String) (sources : List SourceRef)

/-- JS `Math.round` on an exact real value: round half toward positive. -/
noncomputable def jsRound (x : ℝ) : ℤ := ⌊x + 1 / 2⌋

/-- Opening line of `createFallbackResponse` (ragService.js line 436). -/
def fallbackIntro : String :=
  "I apologize, but I\x27m currently experiencing API limitations. However, I can provide you with some relevant information based on the news articles I have:\n\n"

/-- Header preceding the article listing (ragService.js line 439). -/
def articlesHeader : String := "Here are some relevant news articles I found:\n\n"

/-- Closing line of the non-empty fallback listing (ragService.js line 461). -/
def fallbackFooter (n : ℕ) : String :=
  "Based on these " ++ toString n ++ " relevant articles, I can help answer questions about recent technology developments, news trends, and current events. Please try asking more specific questions about the topics mentioned above."

/-- Generic no-matching-articles text (ragService.js lines 463 to 467). -/
def fallbackGeneric : String :=
  "Unfortunately, I couldn\x27t find specific articles matching your query at the moment. Please try rephrasing your question or ask about general news topics like:\n- Technology developments\n- Business news\n- Current events\n- Breaking news\n"

/-- One numbered entry of the fallback listing (ragService.js lines 440 to 459):
title, optional truncated summary, optional source, optional URL, and the
relevance percentage. -/
noncomputable def docEntry (idx : ℕ) (d : Doc) : String :=
  let title := orDflt d.metadata.title "News Article"
  let summary := d.metadata.summary
  let url := d.metadata.url
  let src := d.metadata.source
  toString (idx + 1) ++ ". **" ++ title ++ "**\n" ++
    (if summary = "" then "" else
      "   " ++ summary.take 200 ++ (if 200 < summary.length then "..." else "") ++ "\n") ++
    (if src = "" then "" else "   Source: " ++ src ++ "\n") ++
    (if url = "" then "" else "   Read more: " ++ url ++ "\n") ++
    "   Relevance: " ++ toString (jsRound (d.score * 100)) ++ "%\n\n"

/-- The numbered `forEach` accumulation over the listed documents. -/
noncomputable def docEntries : ℕ → List Doc → String
  | _, [] => ""
  | idx, d :: ds => docEntry idx d ++ docEntries (idx + 1) ds

/-- `RAGService.createFallbackResponse` (ragService.js lines 435 to 471). -/
noncomputable def createFallbackResponse (query : String) (similarDocs : List Doc) : String :=
  if similarDocs.length > 0 then
    fallbackIntro ++ articlesHeader ++ docEntries 0 (similarDocs.take 3) ++
      fallbackFooter similarDocs.length
  else
    fallbackIntro ++ fallbackGeneric

/-- `RAGService.createPrompt` (ragService.js lines 361 to 373). -/
def createPrompt (query context : String) : String :=
  "You are a helpful news assistant. Answer the user\x27s question based on the provided news context. \nIf the context doesn\x27t contain enough information to answer the question, say so politely.\n\nContext from recent news articles:\n" ++
    context ++ "\n\nUser Question: " ++ query ++
    "\n\nPlease provide a comprehensive answer based on the news context above. If you reference specific information, try to be specific about which news source or event you\x27re referring to.\n\nAnswer:"

/-- `RAGService.createGeneralPrompt` (ragService.js lines 375 to 388). -/
def createGeneralPrompt (query : String) : String :=
  "You are a friendly and knowledgeable AI assistant. The user is asking: \"" ++ query ++
    "\"\n\nPlease provide a helpful, informative, and engaging response. Be conversational, clear, and comprehensive. If the question is about recent news or current events, politely explain that you don\x27t have access to real-time news data, but offer to provide general information about the topic or suggest reliable news sources.\n\nGuidelines:\n- Be friendly and conversational\n- Provide detailed, helpful answers\n- Use examples when appropriate\n- If unsure, ask clarifying questions\n- Keep responses well-structured and easy to read\n\nAnswer:"

/-- Context string used in memory-storage mode (ragService.js line 229). -/
def noDocsContext : String := "No specific news articles available in memory storage."

/-- An entry of the in-memory vector store `{id, text, vector, metadata}`. -/
structure MemEntry where
  id : String
  text : String
  vector : List ℝ
  metadata : Metadata

/-- The per-instance RAGService state relevant to the query pipeline. -/
structure ServiceState where
  useMemoryStorage : Bool
  memoryStore : List MemEntry
  embeddingDim : Option ℕ
  jinaApiKey : String

/-- Responses of the external collaborators consumed by one pipeline run:
the indexed-backend search result, the generator outcome, the generator
stream (fragments emitted before an optional error), the clock, and the
fresh session id. -/
structure Oracle where
  searchResult : List Doc
  genResult : Except String String
  streamChunks : List String
  streamErr : Option String
  now : String
  freshUuid : String

/-- The source projection of retrieved matches: `{title or default, url, score}`
(ragService.js lines 267 to 271). -/
def mapSources (docs : List Doc) : List SourceRef :=
  docs.map fun d => ⟨orDflt d.metadata.title "News Article", orDflt d.metadata.url "", d.score⟩

/-- Result value of `processQuery`: `{response, sources}`. -/
structure QueryResult where
  response : String
  sources : List SourceRef

/-- Retrieval phase shared by both pipeline entry points (ragService.js
lines 227 to 242 and 293 to 308): in memory-storage mode no embedding and no
search happen and the sentinel context is used; otherwise the query is
embedded and the top 5 similar documents are fetched from the index. -/
def retrievalPhase (st : ServiceState) (o : Oracle) (query : String) :
    List Event × List Doc × String :=
  if st.useMemoryStorage then ([], [], noDocsContext)
  else ([Event.embedCall query, Event.searchCall 5], o.searchResult,
    String.intercalate "\n\n" (o.searchResult.map Doc.text))

/-- Prompt selection (ragService.js lines 247 to 249 and 313 to 315): the
context-free general prompt in memory-storage mode, the context-conditioned
prompt otherwise. -/
def promptOf (st : ServiceState) (query context : String) : String :=
  if st.useMemoryStorage then createGeneralPrompt query else createPrompt query context

/-- `RAGService.processQuery` (ragService.js lines 222 to 286), returning the
caller-visible outcome together with the emitted effect trace. -/
noncomputable def processQuery (st : ServiceState) (o : Oracle) (query sessionId : String) :
    Except String QueryResult × List Event :=
  let r := retrievalPhase st o query
  let similarDocs := r.2.1
  let prompt := promptOf st query r.2.2
  match o.genResult with
  | Except.ok text =>
      (Except.ok ⟨text, mapSources similarDocs⟩,
        r.1 ++ [Event.genCall prompt,
          Event.historyPush ("chat:" ++ sessionId) ⟨"assistant", text, o.now, mapSources similarDocs⟩])
  | Except.error e =>
      if isDegradable e then
        let response := createFallbackResponse query similarDocs
        (Except.ok ⟨response, mapSources similarDocs⟩,
          r.1 ++ [Event.genCall prompt,
            Event.historyPush ("chat:" ++ sessionId) ⟨"assistant", response, o.now, mapSources similarDocs⟩])
      else
        (Except.error e, r.1 ++ [Event.genCall prompt])

/-- `RAGService.processQueryWithStreaming` (ragService.js lines 288 to 359):
fragments are forwarded to `onChunk` as they arrive; a degradable error after
the delivered fragments replaces the accumulator with the fallback text and
emits it as one further fragment; completion pushes the transcript entry and
then fires `onComplete`. -/
noncomputable def processQueryWithStreaming (st : ServiceState) (o : Oracle)
    (query sessionId : String) : Except String Unit × List Event :=
  let r := retrievalPhase st o query
  let similarDocs := r.2.1
  let prompt := promptOf st query r.2.2
  let chunkEvents := o.streamChunks.map Event.chunkOut
  match o.streamErr with
  | none =>
      let fullResponse := String.join o.streamChunks
      (Except.ok (),
        r.1 ++ [Event.genCall prompt] ++ chunkEvents ++
          [Event.historyPush ("chat:" ++ sessionId) ⟨"assistant", fullResponse, o.now, mapSources similarDocs⟩,
            Event.completeOut fullResponse (mapSources similarDocs)])
  | some e =>
      if isDegradable e then
        let fullResponse := createFallbackResponse query similarDocs
        (Except.ok (),
          r.1 ++ [Event.genCall prompt] ++ chunkEvents ++
            [Event.chunkOut fullResponse,
              Event.historyPush ("chat:" ++ sessionId) ⟨"assistant", fullResponse, o.now, mapSources similarDocs⟩,
              Event.completeOut fullResponse (mapSources similarDocs)])
      else
        (Except.error e, r.1 ++ [Event.genCall prompt] ++ chunkEvents)

/-- The POST /api/chat/message handler (chat.js lines 10 to 45): a missing or
blank message is rejected before the user push and before the pipeline runs;
otherwise the user message is pushed and the query processed. -/
noncomputable def handleChatMessage (st : ServiceState) (o : Oracle)
    (message sessionId : String) : Except String QueryResult × List Event :=
  if message = "" || jsTrim message = "" then
    (Except.error "Message is required", [])
  else
    let finalSessionId := orDflt sessionId o.freshUuid
    let run := processQuery st o message finalSessionId
    (run.1, Event.historyPush ("chat:" ++ finalSessionId) ⟨"user", message, o.now, []⟩ :: run.2)

/-- The fragments passed to `onChunk`, in delivery order. -/
def chunkTexts (evs : List Event) : List String :=
  evs.filterMap fun e => match e with
    | Event.chunkOut s => some s
    | _ => none

/-- The response texts passed to `onComplete`, in delivery order. -/
def completedTexts (evs : List Event) : List String :=
  evs.filterMap fun e => match e with
    | Event.completeOut r _ => some r
    | _ => none

/-- The transcript pushes of a trace, as key-message pairs in order. -/
def pushedMsgs (evs : List Event) : List (String × ChatMessage) :=
  evs.filterMap fun e => match e with
    | Event.historyPush k m => some (k, m)
    | _ => none

/-- Retrieval-provider invocations (embedding generation or similarity
search) recorded in a trace. -/
def isRetrievalCall : Event → Bool
  | Event.embedCall _ => true
  | Event.searchCall _ => true
  | _ => false

/-- Accumulator of the cosine loop (ragService.js lines 186 to 195):
(dot, norm-squared of a, norm-squared of the used part of b). The loop runs
over the indices of `a`; missing components of `b` read as 0. -/
def cosAux : List ℝ → List ℝ → ℝ × ℝ × ℝ
  | [], _ => (0, 0, 0)
  | a :: as, bs =>
      let bv := bs.headD 0
      let rest := cosAux as bs.tail
      (rest.1 + a * bv, rest.2.1 + a * a, rest.2.2 + bv * bv)

/-- The cosine score of the in-memory search: dot over the product of the
square roots, with a zero (or NaN) denominator replaced by 1 via JS `or 1`. -/
noncomputable def cosine (a b : List ℝ) : ℝ :=
  let s := cosAux a b
  let denom := Real.sqrt s.2.1 * Real.sqrt s.2.2
  s.1 / (if denom = 0 then 1 else denom)

/-- A scored in-memory search result `{id, text, score, metadata}`. -/
structure Scored where
  id : String
  text : String
  score : ℝ
  metadata : Metadata

/-- Scoring one stored entry against the query embedding. -/
noncomputable def scoredOf (q : List ℝ) (e : MemEntry) : Scored :=
  ⟨e.id, e.text, cosine q e.vector, e.metadata⟩

/-- Stable descending insertion: the new element goes before the first
element whose score it ties or beats, matching the placement a stable sort
with comparator `(x, y) => y.score - x.score` gives an earlier element. -/
noncomputable def insertDesc (x : Scored) : List Scored → List Scored
  | [] => [x]
  | y :: ys => if y.score ≤ x.score then x :: y :: ys else y :: insertDesc x ys

/-- Model of JS `Array.prototype.sort` with comparator
`(x, y) => y.score - x.score`: ES2019 requires the sort to be stable, and a
stable sort consistent with a total preorder has a unique output, so stable
insertion sort is an exact model. -/
noncomputable def stableSortDesc : List Scored → List Scored
  | [] => []
  | x :: xs => insertDesc x (stableSortDesc xs)

/-- `RAGService.searchSimilar` on the in-memory backend (ragService.js
lines 179 to 203): empty store short-circuits to an empty result; otherwise
every stored vector is scored, sorted by descending score, and the first
`topK` are returned. -/
noncomputable def searchSimilar (store : List MemEntry) (q : List ℝ) (topK : ℕ) : List Scored :=
  if store.length = 0 then []
  else (stableSortDesc (store.map (scoredOf q))).take topK

/-- Signed 32-bit reduction, the ToInt32 coercion JS applies to bitwise
operands and results. -/
def toInt32 (x : ℤ) : ℤ := (x + 2 ^ 31) % 2 ^ 32 - 2 ^ 31

/-- JS `a ^ b` (32-bit XOR) on exactly-integer numbers. -/
def jsXor32 (a b : ℤ) : ℤ :=
  toInt32 (Int.ofNat (Nat.xor ((a % 2 ^ 32).toNat) ((b % 2 ^ 32).toNat)))

/-- One character step of the fallback hash (ragService.js lines 132 to 133):
`h ^= c; h += (h << 1) + (h << 4) + (h << 7) + (h << 8) + (h << 24)`.
Each shift is a 32-bit operation; the additions are exact in doubles. -/
def hashStep (h : ℤ) (c : ℕ) : ℤ :=
  let h1 := jsXor32 h (Int.ofNat c)
  h1 + toInt32 (h1 * 2 ^ 1) + toInt32 (h1 * 2 ^ 4) + toInt32 (h1 * 2 ^ 7) +
    toInt32 (h1 * 2 ^ 8) + toInt32 (h1 * 2 ^ 24)

/-- The stable string hash of one token, seeded with 2166136261. -/
def hashToken (t : List Char) : ℤ :=
  t.foldl (fun h c => hashStep h c.toNat) 2166136261

/-- Characters that survive the split on the regex class outside a-z0-9. -/
def isTokenChar (c : Char) : Bool := ('a' ≤ c && c ≤ 'z') || ('0' ≤ c && c ≤ '9')

/-- `text.toLowerCase().split(regex on non-alphanumeric runs).filter(Boolean)`
(ragService.js line 128): the maximal runs of lower-case-alphanumeric
characters of the lower-cased text. -/
def tokenize (text : String) : List (List Char) :=
  ((text.toList.map Char.toLower).splitOnP (fun c => !(isTokenChar c))).filter
    (fun t => !t.isEmpty)

/-- `vec[idx] += 1` on a JS dense array, modelled with bounds-respecting
list update. -/
def bump (v : List ℕ) (i : ℕ) : List ℕ := v.set i (v.getD i 0 + 1)

/-- The bag-of-tokens count vector of the fallback embedding
(ragService.js lines 127 to 137): bucket index is the absolute hash value
mod the dimension. -/
def fallbackCounts (text : String) (dim : ℕ) : List ℕ :=
  (tokenize text).foldl (fun v t => bump v ((hashToken t).natAbs % dim))
    (List.replicate dim 0)

/-- L2 normalization of the count vector (ragService.js lines 139 to 140):
divide by the Euclidean norm, or by 1 when the norm is 0 (JS `or 1`). -/
noncomputable def l2normalizeCounts (v : List ℕ) : List ℝ :=
  let norm := Real.sqrt ((v.map fun x => ((x : ℝ) * x)).sum)
  let d := if norm = 0 then 1 else norm
  v.map fun x => (x : ℝ) / d

/-- The deterministic local fallback embedding (ragService.js lines 126
to 140). -/
noncomputable def fallbackEmbedding (text : String) (dim : ℕ) : List ℝ :=
  l2normalizeCounts (fallbackCounts text dim)

/-- Length harmonization of a provider vector against an established
collection dimension (ragService.js lines 108 to 114): keep, truncate, or
zero-pad. -/
def harmonize (dim : ℕ) (vec : List ℝ) : List ℝ :=
  if vec.length = dim then vec
  else if dim < vec.length then vec.take dim
  else vec ++ List.replicate (dim - vec.length) 0

/-- `RAGService.generateEmbedding` (ragService.js lines 86 to 142), given the
provider outcome: a missing key or any provider error routes to the local
fallback at the current dimension (default 1024); a provider vector is
harmonized against an established dimension, or establishes it. Returns the
vector and the updated established dimension. -/
noncomputable def generateEmbedding (jinaApiKey : String) (embeddingDim : Option ℕ)
    (provider : Except String (List ℝ)) (text : String) : List ℝ × Option ℕ :=
  if jinaApiKey = "" then
    (fallbackEmbedding text (embeddingDim.getD 1024), embeddingDim)
  else
    match provider with
    | Except.ok vec =>
        match embeddingDim with
        | some d => (harmonize d vec, some d)
        | none => (vec, some vec.length)
    | Except.error _ =>
        (fallbackEmbedding text (embeddingDim.getD 1024), embeddingDim)

/-- The embedding call takes the local fallback path: credentials are missing
or the provider failed. -/
def fallbackPath (jinaApiKey : String) (provider : Except String (List ℝ)) : Prop :=
  jinaApiKey = "" ∨ ∃ e, provider = Except.error e

/-- Redis LRANGE on a list value: negative indices count from the end, the
range is clamped to the list, and an inverted range yields the empty list. -/
def lRange {α : Type} (l : List α) (start stop : ℤ) : List α :=
  let n : ℤ := l.length
  let s := if start < 0 then n + start else start
  let e := if stop < 0 then n + stop else stop
  let s2 := max s 0
  let e2 := min e (n - 1)
  if e2 < s2 then [] else (l.drop s2.toNat).take (e2 - s2 + 1).toNat

/-- `RAGService.getChatHistory` (ragService.js lines 390 to 398): read the
first `limit` entries of the most-recent-first Redis list via
LRANGE 0 (limit - 1) and reverse them into chronological order. -/
def getChatHistory (transcript : List ChatMessage) (limit : ℕ) : List ChatMessage :=
  (lRange transcript 0 ((limit : ℤ) - 1)).reverse

/-- A concrete in-memory service state (memory mode, empty store). -/
def wSt : ServiceState := ⟨true, [], none, ""⟩

/-- A concrete stored entry, to exhibit memory mode with documents present. -/
def wEntry : MemEntry := ⟨"id1", "stored text", [], ⟨"T", "u", "S", "sum"⟩⟩

/-- A concrete memory-mode state whose store holds a document. -/
def wStDocs : ServiceState := ⟨true, [wEntry], none, ""⟩

/-- A concrete oracle for a fully successful run. -/
def wOk : Oracle := ⟨[], Except.ok "answer", ["a", "b"], none, "t0", "u0"⟩

/-- A concrete oracle for a quota-exhausted generator: the stream yields one
fragment and then fails with a degradable error. -/
def wErrQuota : Oracle := ⟨[], Except.error "quota exceeded", ["Hello"], some "quota exceeded", "t0", "u0"⟩

/-- A concrete chat message. -/
def wMsg : ChatMessage := ⟨"user", "hi", "t0", []⟩

end RagSvc

namespace RagSvc

theorem lRange_zero_negOne {α : Type} (l : List α) : lRange l 0 (-1) = l := by
  simp only [lRange]
  norm_num

theorem lRange_zero_limit {α : Type} (l : List α) (L : ℕ) (h : 1 ≤ L) :
    lRange l 0 ((L : ℤ) - 1) = l.take L := by
  simp only [lRange]
  have hL : ¬ ((L : ℤ) - 1 < 0) := by omega
  rw [if_neg (by omega : ¬ ((0 : ℤ) < 0)), if_neg hL]
  rcases l with _ | ⟨a, l⟩
  · simp
  · set n : ℤ := ((a :: l).length : ℤ) with hn
    have hn1 : 1 ≤ n := by
      rw [hn, List.length_cons]
      push_cast
      omega
    have hmax : max (0 : ℤ) 0 = 0 := by omega
    rw [hmax, if_neg (by omega : ¬ (min ((L : ℤ) - 1) (n - 1) < 0))]
    simp only [List.drop_zero, Int.toNat_zero]
    have heq : (min ((L : ℤ) - 1) (n - 1) - 0 + 1).toNat = min L ((a :: l).length) := by
      omega
    rw [heq]
    rcases le_total L ((a :: l).length) with hle | hle
    · rw [min_eq_left hle]
    · rw [min_eq_right hle, List.take_length, List.take_of_length_le hle]

/-- C10: reading a session transcript with limit 0 turns the LRANGE window
into the range 0 to -1, the whole list, so every stored message is returned
in chronological (reversed push) order instead of zero messages. -/
theorem getChatHistory_zero_returns_all (transcript : List ChatMessage) :
    getChatHistory transcript 0 = transcript.reverse
    ∧ (getChatHistory transcript 0).length = transcript.length := by
  have h : getChatHistory transcript 0 = transcript.reverse := by
    simp only [getChatHistory]
    norm_num
    rw [lRange_zero_negOne]
  exact ⟨h, by rw [h, List.length_reverse]⟩

/-- C7 counterexample: with one stored message and read limit 0, the read
returns one message, not min 1 0 = 0, refuting the claim at limit 0. -/
theorem getChatHistory_limit_zero_counterexample :
    (getChatHistory [wMsg] 0).length ≠ min 1 0 := by
  decide

/-- C7 (amended to positive limits): for every transcript and limit L at
least 1, the read takes the L most recently pushed entries and reverses them,
returning min M L messages in chronological order. -/
theorem getChatHistory_window (internal : List ChatMessage) (L : ℕ) (h : 1 ≤ L) :
    getChatHistory internal L = (internal.take L).reverse
    ∧ (getChatHistory internal L).length = min internal.length L
    ∧ getChatHistory internal L = internal.reverse.drop (internal.length - L) := by
  have h1 : getChatHistory internal L = (internal.take L).reverse := by
    simp only [getChatHistory]
    rw [lRange_zero_limit internal L h]
  refine ⟨h1, ?_, ?_⟩
  · rw [h1, List.length_reverse, List.length_take, min_comm]
  · rw [h1, List.reverse_take]

theorem getChatHistory_window_witness :
    1 ≤ 1
    ∧ (getChatHistory [wMsg] 1 = ([wMsg].take 1).reverse
      ∧ (getChatHistory [wMsg] 1).length = min ([wMsg] : List ChatMessage).length 1
      ∧ getChatHistory [wMsg] 1 = ([wMsg] : List ChatMessage).reverse.drop (([wMsg] : List ChatMessage).length - 1)) :=
  ⟨by decide, getChatHistory_window [wMsg] 1 (by decide)⟩

/-- C6: with an established target dimension and a provider vector, the
embedding is harmonized to length exactly D, truncating extra components and
zero-padding missing ones, leaving an exact-length vector unchanged; the
single equation with take and replicate covers all three cases. -/
theorem generateEmbedding_harmonizes (k text : String) (d : ℕ) (vec : List ℝ)
    (hk : k ≠ "") :
    (generateEmbedding k (some d) (Except.ok vec) text).1 = harmonize d vec
    ∧ (harmonize d vec).length = d
    ∧ harmonize d vec = vec.take d ++ List.replicate (d - vec.length) (0 : ℝ) := by
  have h3 : harmonize d vec = vec.take d ++ List.replicate (d - vec.length) (0 : ℝ) := by
    simp only [harmonize]
    split_ifs with h1 h2
    · rw [← h1, List.take_length]
      simp
    · have : d - vec.length = 0 := by omega
      rw [this]
      simp
    · have hle : vec.length ≤ d := by omega
      rw [List.take_of_length_le hle]
  refine ⟨?_, ?_, h3⟩
  · simp [generateEmbedding, hk]
  · rw [h3]
    simp only [List.length_append, List.length_take, List.length_replicate]
    omega

theorem generateEmbedding_harmonizes_witness :
    ("k" : String) ≠ ""
    ∧ ((generateEmbedding "k" (some 2) (Except.ok [(5 : ℝ)]) "t").1 = harmonize 2 [(5 : ℝ)]
      ∧ (harmonize 2 [(5 : ℝ)]).length = 2
      ∧ harmonize 2 [(5 : ℝ)] = ([(5 : ℝ)]).take 2 ++ List.replicate (2 - ([(5 : ℝ)]).length) (0 : ℝ)) :=
  ⟨by decide, generateEmbedding_harmonizes "k" "t" 2 [(5 : ℝ)] (by decide)⟩

theorem jsTrim_of_all_whitespace (message : String)
    (h : message.toList.all jsWhitespace = true) : jsTrim message = "" := by
  simp only [jsTrim]
  have hd : message.toList.dropWhile jsWhitespace = [] := by
    rw [List.dropWhile_eq_nil_iff]
    intro x hx
    exact List.all_eq_true.mp h x hx
  rw [hd]
  rfl

/-- C8: a query that is empty or all whitespace is rejected synchronously by
the route handler with an error result, with an empty effect trace: no user
push, no embedding, no search, and no generation call happen. -/
theorem blank_query_rejected (st : ServiceState) (o : Oracle) (message sessionId : String)
    (h : message.toList.all jsWhitespace = true) :
    handleChatMessage st o message sessionId = (Except.error "Message is required", []) := by
  have ht : jsTrim message = "" := jsTrim_of_all_whitespace message h
  simp [handleChatMessage, ht]

theorem blank_query_rejected_witness :
    (" \t".toList.all jsWhitespace = true)
    ∧ handleChatMessage wSt wOk " \t" "s" = (Except.error "Message is required", []) :=
  ⟨by decide, blank_query_rejected wSt wOk " \t" "s" (by decide)⟩

theorem retrievalPhase_memory (st : ServiceState) (o : Oracle) (q : String)
    (h : st.useMemoryStorage = true) :
    retrievalPhase st o q = ([], [], noDocsContext) := by
  simp [retrievalPhase, h]

theorem retrievalPhase_indexed (st : ServiceState) (o : Oracle) (q : String)
    (h : st.useMemoryStorage = false) :
    retrievalPhase st o q
      = ([Event.embedCall q, Event.searchCall 5], o.searchResult,
        String.intercalate "\n\n" (o.searchResult.map Doc.text)) := by
  simp [retrievalPhase, h]

theorem processQuery_ok_eq (st : ServiceState) (o : Oracle) (q sid t : String)
    (hg : o.genResult = Except.ok t) :
    processQuery st o q sid
      = (Except.ok ⟨t, mapSources (retrievalPhase st o q).2.1⟩,
        (retrievalPhase st o q).1
          ++ [Event.genCall (promptOf st q (retrievalPhase st o q).2.2),
            Event.historyPush ("chat:" ++ sid)
              ⟨"assistant", t, o.now, mapSources (retrievalPhase st o q).2.1⟩]) := by
  simp only [processQuery, hg]

theorem processQuery_degradable_eq (st : ServiceState) (o : Oracle) (q sid e : String)
    (hg : o.genResult = Except.error e) (hd : isDegradable e = true) :
    processQuery st o q sid
      = (Except.ok ⟨createFallbackResponse q (retrievalPhase st o q).2.1,
            mapSources (retrievalPhase st o q).2.1⟩,
        (retrievalPhase st o q).1
          ++ [Event.genCall (promptOf st q (retrievalPhase st o q).2.2),
            Event.historyPush ("chat:" ++ sid)
              ⟨"assistant", createFallbackResponse q (retrievalPhase st o q).2.1, o.now,
                mapSources (retrievalPhase st o q).2.1⟩]) := by
  simp only [processQuery, hg, hd, if_true]

theorem processQuery_fatal_eq (st : ServiceState) (o : Oracle) (q sid e : String)
    (hg : o.genResult = Except.error e) (hd : isDegradable e = false) :
    processQuery st o q sid
      = (Except.error e,
        (retrievalPhase st o q).1
          ++ [Event.genCall (promptOf st q (retrievalPhase st o q).2.2)]) := by
  simp only [processQuery, hg, hd]
  simp

theorem streaming_ok_eq (st : ServiceState) (o : Oracle) (q sid : String)
    (hs : o.streamErr = none) :
    processQueryWithStreaming st o q sid
      = (Except.ok (),
        (retrievalPhase st o q).1
          ++ [Event.genCall (promptOf st q (retrievalPhase st o q).2.2)]
          ++ o.streamChunks.map Event.chunkOut
          ++ [Event.historyPush ("chat:" ++ sid)
                ⟨"assistant", String.join o.streamChunks, o.now,
                  mapSources (retrievalPhase st o q).2.1⟩,
              Event.completeOut (String.join o.streamChunks)
                (mapSources (retrievalPhase st o q).2.1)]) := by
  simp only [processQueryWithStreaming, hs]

theorem streaming_degradable_eq (st : ServiceState) (o : Oracle) (q sid e : String)
    (hs : o.streamErr = some e) (hd : isDegradable e = true) :
    processQueryWithStreaming st o q sid
      = (Except.ok (),
        (retrievalPhase st o q).1
          ++ [Event.genCall (promptOf st q (retrievalPhase st o q).2.2)]
          ++ o.streamChunks.map Event.chunkOut
          ++ [Event.chunkOut (createFallbackResponse q (retrievalPhase st o q).2.1),
              Event.historyPush ("chat:" ++ sid)
                ⟨"assistant", createFallbackResponse q (retrievalPhase st o q).2.1, o.now,
                  mapSources (retrievalPhase st o q).2.1⟩,
              Event.completeOut (createFallbackResponse q (retrievalPhase st o q).2.1)
                (mapSources (retrievalPhase st o q).2.1)]) := by
  simp only [processQueryWithStreaming, hs, hd, if_true]

theorem streaming_fatal_eq (st : ServiceState) (o : Oracle) (q sid e : String)
    (hs : o.streamErr = some e) (hd : isDegradable e = false) :
    processQueryWithStreaming st o q sid
      = (Except.error e,
        (retrievalPhase st o q).1
          ++ [Event.genCall (promptOf st q (retrievalPhase st o q).2.2)]
          ++ o.streamChunks.map Event.chunkOut) := by
  simp only [processQueryWithStreaming, hs, hd]
  simp

theorem filter_retrieval_chunkOut (cs : List String) :
    (cs.map Event.chunkOut).filter isRetrievalCall = [] := by
  induction cs with
  | nil => rfl
  | cons c cs ih => simp [isRetrievalCall, ih]

/-- C5: in memory-storage mode, neither pipeline entry point ever invokes
embedding generation or similarity search, whatever the contents of the
in-memory store; the sources list is always empty, every generation call uses
the context-free general prompt, and streaming completion carries an empty
source list. -/
theorem memoryMode_skips_retrieval (st : ServiceState) (o : Oracle) (q sid : String)
    (h : st.useMemoryStorage = true) :
    (processQuery st o q sid).2.filter isRetrievalCall = []
    ∧ (processQueryWithStreaming st o q sid).2.filter isRetrievalCall = []
    ∧ (∀ r, (processQuery st o q sid).1 = Except.ok r → r.sources = [])
    ∧ (∀ p, Event.genCall p ∈ (processQuery st o q sid).2 → p = createGeneralPrompt q)
    ∧ (∀ p, Event.genCall p ∈ (processQueryWithStreaming st o q sid).2 →
        p = createGeneralPrompt q)
    ∧ (∀ resp srcs, Event.completeOut resp srcs ∈ (processQueryWithStreaming st o q sid).2 →
        srcs = []) := by
  have hr := retrievalPhase_memory st o q h
  have hgp : promptOf st q noDocsContext = createGeneralPrompt q := by
    simp [promptOf, h]
  refine ⟨?_, ?_, ?_, ?_, ?_, ?_⟩
  · rcases hg : o.genResult with e | t
    · rcases hd : isDegradable e with _ | _
      · rw [processQuery_fatal_eq st o q sid e hg hd, hr]
        simp [isRetrievalCall]
      · rw [processQuery_degradable_eq st o q sid e hg hd, hr]
        simp [isRetrievalCall]
    · rw [processQuery_ok_eq st o q sid t hg, hr]
      simp [isRetrievalCall, hgp, mapSources]
  · rcases hs : o.streamErr with _ | e
    · rw [streaming_ok_eq st o q sid hs, hr]
      simp [isRetrievalCall, List.filter_append, filter_retrieval_chunkOut]
    · rcases hd : isDegradable e with _ | _
      · rw [streaming_fatal_eq st o q sid e hs hd, hr]
        simp [isRetrievalCall, List.filter_append, filter_retrieval_chunkOut]
      · rw [streaming_degradable_eq st o q sid e hs hd, hr]
        simp [isRetrievalCall, List.filter_append, filter_retrieval_chunkOut]
  · intro r hres
    rcases hg : o.genResult with e | t
    · rcases hd : isDegradable e with _ | _
      · rw [processQuery_fatal_eq st o q sid e hg hd] at hres
        cases hres
      · rw [processQuery_degradable_eq st o q sid e hg hd, hr] at hres
        cases hres
        simp [mapSources]
    · rw [processQuery_ok_eq st o q sid t hg, hr] at hres
      cases hres
      simp [mapSources]
  · intro p hp
    rcases hg : o.genResult with e | t
    · rcases hd : isDegradable e with _ | _
      · rw [processQuery_fatal_eq st o q sid e hg hd, hr] at hp
        simp [hgp] at hp
        exact hp.symm ▸ rfl
      · rw [processQuery_degradable_eq st o q sid e hg hd, hr] at hp
        simp [hgp] at hp
        exact hp.symm ▸ rfl
    · rw [processQuery_ok_eq st o q sid t hg, hr] at hp
      simp [hgp] at hp
      exact hp.symm ▸ rfl
  · intro p hp
    rcases hs : o.streamErr with _ | e
    · rw [streaming_ok_eq st o q sid hs, hr] at hp
      simp [hgp, List.mem_append, List.mem_map] at hp
      exact hp.symm ▸ rfl
    · rcases hd : isDegradable e with _ | _
      · rw [streaming_fatal_eq st o q sid e hs hd, hr] at hp
        simp [hgp, List.mem_append, List.mem_map] at hp
        exact hp.symm ▸ rfl
      · rw [streaming_degradable_eq st o q sid e hs hd, hr] at hp
        simp [hgp, List.mem_append, List.mem_map] at hp
        exact hp.symm ▸ rfl
  · intro resp srcs hmem
    rcases hs : o.streamErr with _ | e
    · rw [streaming_ok_eq st o q sid hs, hr] at hmem
      simp [mapSources, List.mem_append, List.mem_map] at hmem
      exact hmem.2
    · rcases hd : isDegradable e with _ | _
      · rw [streaming_fatal_eq st o q sid e hs hd, hr] at hmem
        simp [List.mem_append, List.mem_map] at hmem
      · rw [streaming_degradable_eq st o q sid e hs hd, hr] at hmem
        simp [mapSources, List.mem_append, List.mem_map] at hmem
        exact hmem.2

theorem memoryMode_skips_retrieval_witness :
    wStDocs.useMemoryStorage = true
    ∧ ((processQuery wStDocs wOk "hi" "s").2.filter isRetrievalCall = []
      ∧ (processQueryWithStreaming wStDocs wOk "hi" "s").2.filter isRetrievalCall = []
      ∧ (∀ r, (processQuery wStDocs wOk "hi" "s").1 = Except.ok r → r.sources = [])
      ∧ (∀ p, Event.genCall p ∈ (processQuery wStDocs wOk "hi" "s").2 →
          p = createGeneralPrompt "hi")
      ∧ (∀ p, Event.genCall p ∈ (processQueryWithStreaming wStDocs wOk "hi" "s").2 →
          p = createGeneralPrompt "hi")
      ∧ (∀ resp srcs,
          Event.completeOut resp srcs ∈ (processQueryWithStreaming wStDocs wOk "hi" "s").2 →
          srcs = [])) :=
  ⟨rfl, memoryMode_skips_retrieval wStDocs wOk "hi" "s" rfl⟩

theorem pushedMsgs_retrieval (st : ServiceState) (o : Oracle) (q : String) :
    pushedMsgs (retrievalPhase st o q).1 = [] := by
  rcases h : st.useMemoryStorage with _ | _
  · rw [retrievalPhase_indexed st o q h]
    simp [pushedMsgs]
  · rw [retrievalPhase_memory st o q h]
    simp [pushedMsgs]

theorem pushedMsgs_chunkOut (cs : List String) :
    pushedMsgs (cs.map Event.chunkOut) = [] := by
  simp [pushedMsgs]

theorem pushedMsgs_append (a b : List Event) :
    pushedMsgs (a ++ b) = pushedMsgs a ++ pushedMsgs b := by
  simp [pushedMsgs, List.filterMap_append]

/-- C9: every completing invocation (success or degraded fallback) of either
pipeline entry point appends exactly one assistant chat message, carrying the
returned response text, a timestamp and the source list, to the session key,
and makes no other transcript modification; in streaming mode the push
happens immediately before the completion callback. -/
theorem completion_appends_one_message (st : ServiceState) (o : Oracle) (q sid : String) :
    (∀ r, (processQuery st o q sid).1 = Except.ok r →
        pushedMsgs (processQuery st o q sid).2
          = [("chat:" ++ sid, ⟨"assistant", r.response, o.now, r.sources⟩)])
    ∧ ((processQueryWithStreaming st o q sid).1 = Except.ok () →
        ∃ pre resp srcs,
          (processQueryWithStreaming st o q sid).2
            = pre ++ [Event.historyPush ("chat:" ++ sid) ⟨"assistant", resp, o.now, srcs⟩,
                Event.completeOut resp srcs]
          ∧ pushedMsgs pre = []) := by
  constructor
  · intro r hres
    rcases hg : o.genResult with e | t
    · rcases hd : isDegradable e with _ | _
      · rw [processQuery_fatal_eq st o q sid e hg hd] at hres
        cases hres
      · rw [processQuery_degradable_eq st o q sid e hg hd] at hres
        rw [processQuery_degradable_eq st o q sid e hg hd]
        cases hres
        simp only [pushedMsgs_append, pushedMsgs_retrieval st o q]
        simp [pushedMsgs]
    · rw [processQuery_ok_eq st o q sid t hg] at hres
      rw [processQuery_ok_eq st o q sid t hg]
      cases hres
      simp only [pushedMsgs_append, pushedMsgs_retrieval st o q]
      simp [pushedMsgs]
  · intro hres
    rcases hs : o.streamErr with _ | e
    · rw [streaming_ok_eq st o q sid hs]
      refine ⟨(retrievalPhase st o q).1
          ++ [Event.genCall (promptOf st q (retrievalPhase st o q).2.2)]
          ++ o.streamChunks.map Event.chunkOut,
        String.join o.streamChunks, mapSources (retrievalPhase st o q).2.1, ?_, ?_⟩
      · simp [List.append_assoc]
      · simp only [pushedMsgs_append, pushedMsgs_retrieval st o q, pushedMsgs_chunkOut]
        simp [pushedMsgs]
    · rcases hd : isDegradable e with _ | _
      · rw [streaming_fatal_eq st o q sid e hs hd] at hres
        cases hres
      · rw [streaming_degradable_eq st o q sid e hs hd]
        refine ⟨(retrievalPhase st o q).1
            ++ [Event.genCall (promptOf st q (retrievalPhase st o q).2.2)]
            ++ o.streamChunks.map Event.chunkOut
            ++ [Event.chunkOut (createFallbackResponse q (retrievalPhase st o q).2.1)],
          createFallbackResponse q (retrievalPhase st o q).2.1,
          mapSources (retrievalPhase st o q).2.1, ?_, ?_⟩
        · simp [List.append_assoc]
        · simp only [pushedMsgs_append, pushedMsgs_retrieval st o q, pushedMsgs_chunkOut]
          simp [pushedMsgs]

theorem completion_appends_one_message_witness :
    (∀ r, (processQuery wSt wOk "hi" "s").1 = Except.ok r →
        pushedMsgs (processQuery wSt wOk "hi" "s").2
          = [("chat:" ++ "s", ⟨"assistant", r.response, wOk.now, r.sources⟩)])
    ∧ ((processQueryWithStreaming wSt wOk "hi" "s").1 = Except.ok () →
        ∃ pre resp srcs,
          (processQueryWithStreaming wSt wOk "hi" "s").2
            = pre ++ [Event.historyPush ("chat:" ++ "s") ⟨"assistant", resp, wOk.now, srcs⟩,
                Event.completeOut resp srcs]
          ∧ pushedMsgs pre = []) :=
  completion_appends_one_message wSt wOk "hi" "s"

/-- C1: a generator error whose message marks rate limiting, quota
exhaustion, invalid or expired credentials, or upstream overload makes
`processQuery` return the deterministic fallback response built from the
retrieved matches instead of throwing; any other generator error propagates.
The fallback text lists up to the top 3 retrieved matches (title, truncated
snippet, source, URL, relevance percentage) or the generic
no-matching-articles message when nothing was retrieved. -/
theorem generator_error_classification (st : ServiceState) (o : Oracle) (q sid e : String)
    (he : o.genResult = Except.error e) :
    (isDegradable e = true →
        (processQuery st o q sid).1
          = Except.ok ⟨createFallbackResponse q (retrievalPhase st o q).2.1,
              mapSources (retrievalPhase st o q).2.1⟩)
    ∧ (isDegradable e = false → (processQuery st o q sid).1 = Except.error e)
    ∧ (∀ docs : List Doc, docs ≠ [] →
        createFallbackResponse q docs
          = fallbackIntro ++ articlesHeader ++ docEntries 0 (docs.take 3)
              ++ fallbackFooter docs.length)
    ∧ createFallbackResponse q [] = fallbackIntro ++ fallbackGeneric := by
  refine ⟨?_, ?_, ?_, ?_⟩
  · intro hd
    rw [processQuery_degradable_eq st o q sid e he hd]
  · intro hd
    rw [processQuery_fatal_eq st o q sid e he hd]
  · intro docs hne
    have hlen : docs.length > 0 := List.length_pos.mpr hne
    simp [createFallbackResponse, hlen]
  · simp [createFallbackResponse]

theorem generator_error_classification_witness :
    wErrQuota.genResult = Except.error "quota exceeded"
    ∧ ((isDegradable "quota exceeded" = true →
          (processQuery wSt wErrQuota "q" "s").1
            = Except.ok ⟨createFallbackResponse "q" (retrievalPhase wSt wErrQuota "q").2.1,
                mapSources (retrievalPhase wSt wErrQuota "q").2.1⟩)
      ∧ (isDegradable "quota exceeded" = false →
          (processQuery wSt wErrQuota "q" "s").1 = Except.error "quota exceeded")
      ∧ (∀ docs : List Doc, docs ≠ [] →
          createFallbackResponse "q" docs
            = fallbackIntro ++ articlesHeader ++ docEntries 0 (docs.take 3)
                ++ fallbackFooter docs.length)
      ∧ createFallbackResponse "q" [] = fallbackIntro ++ fallbackGeneric) :=
  ⟨rfl, generator_error_classification wSt wErrQuota "q" "s" "quota exceeded" rfl⟩

theorem empty_append_str (a : String) : "" ++ a = a := by
  cases a
  rfl

theorem join_pair (a b : String) : String.join [a, b] = a ++ b := by
  show ("" ++ a) ++ b = a ++ b
  rw [empty_append_str]

theorem join_single (a : String) : String.join [a] = a := by
  show "" ++ a = a
  rw [empty_append_str]

theorem chunkTexts_append (a b : List Event) :
    chunkTexts (a ++ b) = chunkTexts a ++ chunkTexts b := by
  simp [chunkTexts, List.filterMap_append]

theorem chunkTexts_map (cs : List String) : chunkTexts (cs.map Event.chunkOut) = cs := by
  induction cs with
  | nil => rfl
  | cons c cs ih => simp only [List.map_cons, chunkTexts, List.filterMap_cons] at ih ⊢; rw [ih]

theorem chunkTexts_retrieval (st : ServiceState) (o : Oracle) (q : String) :
    chunkTexts (retrievalPhase st o q).1 = [] := by
  rcases h : st.useMemoryStorage with _ | _
  · rw [retrievalPhase_indexed st o q h]
    simp [chunkTexts]
  · rw [retrievalPhase_memory st o q h]
    simp [chunkTexts]

theorem completedTexts_append (a b : List Event) :
    completedTexts (a ++ b) = completedTexts a ++ completedTexts b := by
  simp [completedTexts, List.filterMap_append]

theorem completedTexts_chunkOut (cs : List String) :
    completedTexts (cs.map Event.chunkOut) = [] := by
  simp [completedTexts]

theorem completedTexts_retrieval (st : ServiceState) (o : Oracle) (q : String) :
    completedTexts (retrievalPhase st o q).1 = [] := by
  rcases h : st.useMemoryStorage with _ | _
  · rw [retrievalPhase_indexed st o q h]
    simp [completedTexts]
  · rw [retrievalPhase_memory st o q h]
    simp [completedTexts]

/-- C2 counterexample: in a streaming run where the generator emits the
fragment Hello and then fails with a degradable quota error, the
concatenation of all fragments passed to onChunk is Hello followed by the
fallback text, while onComplete receives only the fallback text, so the two
differ. -/
theorem streaming_concat_counterexample :
    String.join (chunkTexts (processQueryWithStreaming wSt wErrQuota "q" "s").2)
      ≠ String.join (completedTexts (processQueryWithStreaming wSt wErrQuota "q" "s").2) := by
  rw [streaming_degradable_eq wSt wErrQuota "q" "s" "quota exceeded" rfl (by decide)]
  rw [retrievalPhase_memory wSt wErrQuota "q" rfl]
  have hch : wErrQuota.streamChunks = ["Hello"] := rfl
  simp only [hch]
  simp only [chunkTexts, completedTexts, List.map_cons, List.map_nil, List.nil_append,
    List.append_nil, List.cons_append, List.filterMap_cons, List.filterMap_nil,
    List.filterMap_append]
  rw [join_pair, join_single]
  intro hcontra
  have hlen := congrArg String.length hcontra
  rw [String.length_append] at hlen
  have h5 : ("Hello" : String).length = 5 := rfl
  omega

/-- C2 (amended): every completing streaming run fires onComplete exactly
once, strictly after all onChunk deliveries; the concatenation of fragments
equals the completed text whenever generation succeeded, or whenever the
degradable failure happened before any fragment was emitted; a mid-stream
degradable failure appends the entire fallback text as one further fragment,
and the completed text is the fallback text alone, excluding the fragments
already delivered. -/
theorem streaming_contract (st : ServiceState) (o : Oracle) (q sid : String)
    (hres : (processQueryWithStreaming st o q sid).1 = Except.ok ()) :
    ∃ pre resp srcs,
      (processQueryWithStreaming st o q sid).2 = pre ++ [Event.completeOut resp srcs]
      ∧ completedTexts pre = []
      ∧ (o.streamErr = none →
          chunkTexts (processQueryWithStreaming st o q sid).2 = o.streamChunks
          ∧ resp = String.join o.streamChunks)
      ∧ (∀ e, o.streamErr = some e →
          chunkTexts (processQueryWithStreaming st o q sid).2 = o.streamChunks ++ [resp]
          ∧ resp = createFallbackResponse q (retrievalPhase st o q).2.1
          ∧ (o.streamChunks = [] →
              String.join (chunkTexts (processQueryWithStreaming st o q sid).2) = resp)) := by
  rcases hs : o.streamErr with _ | e
  · rw [streaming_ok_eq st o q sid hs]
    refine ⟨(retrievalPhase st o q).1
        ++ [Event.genCall (promptOf st q (retrievalPhase st o q).2.2)]
        ++ o.streamChunks.map Event.chunkOut
        ++ [Event.historyPush ("chat:" ++ sid)
              ⟨"assistant", String.join o.streamChunks, o.now,
                mapSources (retrievalPhase st o q).2.1⟩],
      String.join o.streamChunks, mapSources (retrievalPhase st o q).2.1, ?_, ?_, ?_, ?_⟩
    · simp [List.append_assoc]
    · simp only [completedTexts_append, completedTexts_retrieval st o q,
        completedTexts_chunkOut]
      simp [completedTexts]
    · intro _
      constructor
      · simp only [chunkTexts_append, chunkTexts_retrieval st o q, chunkTexts_map]
        simp [chunkTexts]
      · rfl
    · intro e' he'
      cases he'
  · rcases hd : isDegradable e with _ | _
    · rw [streaming_fatal_eq st o q sid e hs hd] at hres
      cases hres
    · rw [streaming_degradable_eq st o q sid e hs hd]
      refine ⟨(retrievalPhase st o q).1
          ++ [Event.genCall (promptOf st q (retrievalPhase st o q).2.2)]
          ++ o.streamChunks.map Event.chunkOut
          ++ [Event.chunkOut (createFallbackResponse q (retrievalPhase st o q).2.1),
              Event.historyPush ("chat:" ++ sid)
                ⟨"assistant", createFallbackResponse q (retrievalPhase st o q).2.1, o.now,
                  mapSources (retrievalPhase st o q).2.1⟩],
        createFallbackResponse q (retrievalPhase st o q).2.1,
        mapSources (retrievalPhase st o q).2.1, ?_, ?_, ?_, ?_⟩
      · simp [List.append_assoc]
      · simp only [completedTexts_append, completedTexts_retrieval st o q,
          completedTexts_chunkOut]
        simp [completedTexts]
      · intro hnone
        cases hnone
      · intro e' he'
        have hc : chunkTexts ((retrievalPhase st o q).1
            ++ [Event.genCall (promptOf st q (retrievalPhase st o q).2.2)]
            ++ o.streamChunks.map Event.chunkOut
            ++ [Event.chunkOut (createFallbackResponse q (retrievalPhase st o q).2.1),
                Event.historyPush ("chat:" ++ sid)
                  ⟨"assistant", createFallbackResponse q (retrievalPhase st o q).2.1, o.now,
                    mapSources (retrievalPhase st o q).2.1⟩,
                Event.completeOut (createFallbackResponse q (retrievalPhase st o q).2.1)
                  (mapSources (retrievalPhase st o q).2.1)])
            = o.streamChunks ++ [createFallbackResponse q (retrievalPhase st o q).2.1] := by
          simp only [chunkTexts_append, chunkTexts_retrieval st o q, chunkTexts_map]
          simp [chunkTexts]
        refine ⟨hc, rfl, ?_⟩
        intro hnil
        rw [hc, hnil, List.nil_append, join_single]

theorem streaming_contract_witness :
    (processQueryWithStreaming wSt wOk "q" "s").1 = Except.ok ()
    ∧ ∃ pre resp srcs,
        (processQueryWithStreaming wSt wOk "q" "s").2 = pre ++ [Event.completeOut resp srcs]
        ∧ completedTexts pre = []
        ∧ (wOk.streamErr = none →
            chunkTexts (processQueryWithStreaming wSt wOk "q" "s").2 = wOk.streamChunks
            ∧ resp = String.join wOk.streamChunks)
        ∧ (∀ e, wOk.streamErr = some e →
            chunkTexts (processQueryWithStreaming wSt wOk "q" "s").2
              = wOk.streamChunks ++ [resp]
            ∧ resp = createFallbackResponse "q" (retrievalPhase wSt wOk "q").2.1
            ∧ (wOk.streamChunks = [] →
                String.join (chunkTexts (processQueryWithStreaming wSt wOk "q" "s").2) = resp)) :=
  ⟨rfl, streaming_contract wSt wOk "q" "s" rfl⟩

theorem insertDesc_perm (x : Scored) (l : List Scored) :
    List.Perm (insertDesc x l) (x :: l) := by
  induction l with
  | nil => rfl
  | cons y ys ih =>
      by_cases hxy : y.score ≤ x.score
      · simp [insertDesc, hxy]
      · simp only [insertDesc, hxy, if_false]
        exact (ih.cons y).trans (List.Perm.swap x y ys)

theorem stableSortDesc_perm (l : List Scored) : List.Perm (stableSortDesc l) l := by
  induction l with
  | nil => rfl
  | cons x xs ih => exact (insertDesc_perm x (stableSortDesc xs)).trans (ih.cons x)

theorem insertDesc_pairwise (x : Scored) (l : List Scored)
    (h : l.Pairwise (fun a b => b.score ≤ a.score)) :
    (insertDesc x l).Pairwise (fun a b => b.score ≤ a.score) := by
  induction l with
  | nil => simp [insertDesc]
  | cons y ys ih =>
      rcases List.pairwise_cons.mp h with ⟨hy, hys⟩
      by_cases hxy : y.score ≤ x.score
      · simp only [insertDesc, hxy, if_true]
        refine List.pairwise_cons.mpr ⟨?_, h⟩
        intro z hz
        rcases List.mem_cons.mp hz with rfl | hz
        · exact hxy
        · exact le_trans (hy z hz) hxy
      · simp only [insertDesc, hxy, if_false]
        refine List.pairwise_cons.mpr ⟨?_, ih hys⟩
        intro z hz
        have hz2 : z ∈ x :: ys := (insertDesc_perm x ys).mem_iff.mp hz
        rcases List.mem_cons.mp hz2 with rfl | hz3
        · exact le_of_lt (not_le.mp hxy)
        · exact hy z hz3

theorem stableSortDesc_pairwise (l : List Scored) :
    (stableSortDesc l).Pairwise (fun a b => b.score ≤ a.score) := by
  induction l with
  | nil => simp [stableSortDesc]
  | cons x xs ih => exact insertDesc_pairwise x (stableSortDesc xs) ih

theorem insertDesc_filter (x : Scored) (l : List Scored) (c : ℝ) :
    (insertDesc x l).filter (fun d => decide (d.score = c))
      = (if x.score = c then [x] else []) ++ l.filter (fun d => decide (d.score = c)) := by
  induction l with
  | nil =>
      simp only [insertDesc, List.filter_cons, List.filter_nil]
      split_ifs with h1 <;> simp_all
  | cons y ys ih =>
      by_cases hxy : y.score ≤ x.score
      · simp only [insertDesc, hxy, if_true, List.filter_cons]
        split_ifs <;> simp_all
      · have hlt : x.score < y.score := not_le.mp hxy
        simp only [insertDesc, hxy, if_false, List.filter_cons, ih]
        by_cases hxc : x.score = c
        · have hyc : ¬ (y.score = c) := by
            intro hy
            rw [hxc] at hlt
            rw [hy] at hlt
            exact lt_irrefl c hlt
          simp [hxc, hyc]
        · simp [hxc]

theorem stableSortDesc_filter (l : List Scored) (c : ℝ) :
    (stableSortDesc l).filter (fun d => decide (d.score = c))
      = l.filter (fun d => decide (d.score = c)) := by
  induction l with
  | nil => rfl
  | cons x xs ih =>
      simp only [stableSortDesc, insertDesc_filter, ih, List.filter_cons]
      split_ifs <;> simp_all

/-- C3: on the in-memory store, searchSimilar returns exactly min N k
results, sorted by non-increasing cosine score; it equals the first k
elements of the stable descending sort of the scored entries, whose
equal-score classes keep insertion order (filter stability); the empty store
yields an empty result, never an error. -/
theorem searchSimilar_topk (store : List MemEntry) (q : List ℝ) (k : ℕ) :
    (searchSimilar store q k).length = min store.length k
    ∧ List.Pairwise (fun a b => b.score ≤ a.score) (searchSimilar store q k)
    ∧ searchSimilar store q k = (stableSortDesc (store.map (scoredOf q))).take k
    ∧ (∀ c : ℝ,
        (stableSortDesc (store.map (scoredOf q))).filter (fun d => decide (d.score = c))
          = (store.map (scoredOf q)).filter (fun d => decide (d.score = c)))
    ∧ searchSimilar ([] : List MemEntry) q k = [] := by
  have h3 : searchSimilar store q k = (stableSortDesc (store.map (scoredOf q))).take k := by
    by_cases hst : store.length = 0
    · rw [List.length_eq_zero.mp hst]
      simp [searchSimilar, stableSortDesc]
    · simp [searchSimilar, hst]
  have hlen : (stableSortDesc (store.map (scoredOf q))).length = store.length := by
    rw [(stableSortDesc_perm (store.map (scoredOf q))).length_eq, List.length_map]
  refine ⟨?_, ?_, h3, ?_, ?_⟩
  · rw [h3, List.length_take, hlen, min_comm]
  · rw [h3]
    exact (stableSortDesc_pairwise (store.map (scoredOf q))).sublist
      (List.take_sublist k (stableSortDesc (store.map (scoredOf q))))
  · intro c
    exact stableSortDesc_filter (store.map (scoredOf q)) c
  · simp [searchSimilar]

theorem bump_length (v : List ℕ) (i : ℕ) : (bump v i).length = v.length := by
  simp [bump]

theorem foldl_bump_length (ts : List (List Char)) (dim : ℕ) (v : List ℕ) :
    (ts.foldl (fun w t => bump w ((hashToken t).natAbs % dim)) v).length = v.length := by
  induction ts generalizing v with
  | nil => rfl
  | cons t ts ih => rw [List.foldl_cons, ih, bump_length]

theorem fallbackCounts_length (text : String) (dim : ℕ) :
    (fallbackCounts text dim).length = dim := by
  rw [fallbackCounts, foldl_bump_length, List.length_replicate]

theorem bump_getD (v : List ℕ) (j i : ℕ) (hi : i < v.length) :
    (bump v j).getD i 0 = v.getD i 0 + if j = i then 1 else 0 := by
  rw [bump, List.getD_eq_getElem?_getD, List.getD_eq_getElem?_getD]
  by_cases hji : j = i
  · subst hji
    rw [List.getElem?_set_self hi]
    rw [List.getD_eq_getElem?_getD]
    simp [List.getElem?_set_self hi]
  · rw [List.getElem?_set_ne hji]
    simp [hji]

theorem foldl_bump_getD (dim i : ℕ) (hi : i < dim)
    (ts : List (List Char)) (v : List ℕ) (hv : v.length = dim) :
    (ts.foldl (fun w t => bump w ((hashToken t).natAbs % dim)) v).getD i 0
      = v.getD i 0 + (ts.filter (fun t => (hashToken t).natAbs % dim = i)).length := by
  induction ts generalizing v with
  | nil => simp
  | cons t ts ih =>
      rw [List.foldl_cons, ih (bump v ((hashToken t).natAbs % dim)) (by rw [bump_length, hv])]
      rw [bump_getD v ((hashToken t).natAbs % dim) i (by omega)]
      rw [List.filter_cons]
      by_cases ht : (hashToken t).natAbs % dim = i
      · simp [ht]
        omega
      · simp [ht]

/-- C4: the local fallback embedding is deterministic: any two calls of
generateEmbedding that take the fallback path (missing credentials or
provider error) on the same text and established dimension return the
identical vector, namely the L2-normalized bag-of-tokens count vector whose
bucket i counts the tokens of the lower-cased non-alphanumeric-split text
whose stable hash maps to i modulo the dimension. -/
theorem fallbackEmbedding_deterministic (text : String) (dim i : ℕ) (dOpt : Option ℕ)
    (k1 k2 : String) (p1 p2 : Except String (List ℝ))
    (h1 : fallbackPath k1 p1) (h2 : fallbackPath k2 p2)
    (hdim : 0 < dim) (hi : i < dim) :
    (generateEmbedding k1 dOpt p1 text).1 = (generateEmbedding k2 dOpt p2 text).1
    ∧ (generateEmbedding k1 dOpt p1 text).1 = fallbackEmbedding text (dOpt.getD 1024)
    ∧ fallbackEmbedding text dim = l2normalizeCounts (fallbackCounts text dim)
    ∧ (fallbackCounts text dim).length = dim
    ∧ (fallbackCounts text dim).getD i 0
        = ((tokenize text).filter (fun t => (hashToken t).natAbs % dim = i)).length := by
  have hfb : ∀ (k : String) (p : Except String (List ℝ)), fallbackPath k p →
      (generateEmbedding k dOpt p text).1 = fallbackEmbedding text (dOpt.getD 1024) := by
    intro k p hp
    rcases hp with hk | ⟨e, hpe⟩
    · simp [generateEmbedding, hk]
    · by_cases hk : k = ""
      · simp [generateEmbedding, hk]
      · simp [generateEmbedding, hk, hpe]
  refine ⟨?_, hfb k1 p1 h1, rfl, fallbackCounts_length text dim, ?_⟩
  · rw [hfb k1 p1 h1, hfb k2 p2 h2]
  · rw [fallbackCounts, foldl_bump_getD dim i hi (tokenize text)
      (List.replicate dim 0) (List.length_replicate dim 0)]
    rw [List.getD_eq_getElem?_getD]
    simp [List.getElem?_replicate, hi]

theorem fallbackEmbedding_deterministic_witness :
    fallbackPath "" (Except.ok [(1 : ℝ)])
    ∧ fallbackPath "key" (Except.error "network down")
    ∧ 0 < 8 ∧ 3 < 8
    ∧ ((generateEmbedding "" none (Except.ok [(1 : ℝ)]) "ab cd ab").1
        = (generateEmbedding "key" none (Except.error "network down") "ab cd ab").1
      ∧ (generateEmbedding "" none (Except.ok [(1 : ℝ)]) "ab cd ab").1
          = fallbackEmbedding "ab cd ab" ((none : Option ℕ).getD 1024)
      ∧ fallbackEmbedding "ab cd ab" 8 = l2normalizeCounts (fallbackCounts "ab cd ab" 8)
      ∧ (fallbackCounts "ab cd ab" 8).length = 8
      ∧ (fallbackCounts "ab cd ab" 8).getD 3 0
          = ((tokenize "ab cd ab").filter
              (fun t => (hashToken t).natAbs % 8 = 3)).length) :=
  ⟨Or.inl rfl, Or.inr ⟨"network down", rfl⟩, by decide, by decide,
    fallbackEmbedding_deterministic "ab cd ab" 8 3 none "" "key"
      (Except.ok [(1 : ℝ)]) (Except.error "network down")
      (Or.inl rfl) (Or.inr ⟨"network down", rfl⟩) (by decide) (by decide)⟩

end RagSvc
